import Mathlib

/-!
Verification of the `ScaffolderEngine` class
(`src/plasoscaffolder/lib/engine.py`).

The engine orchestrates project scaffolding: it validates a project root
path against a registry of project-type definitions, derives naming
conventions from a user-chosen module name, forwards typed attributes to
the active scaffolder, and generates files by copying static templates and
writing scaffolder-produced content.

External collaborators (the definition registry, the scaffolder plugin and
the file handler) are interfaces consumed by the engine; they are modelled
here as explicit data: a registry is a list of `Definition`s, a scaffolder
is a record of the answers its methods return, and the filesystem / file
handler behaviour is a `FileSystem` record of response functions.  Python
strings are modelled as Lean `String`s with ASCII case mapping.
-/

set_option autoImplicit false

namespace PlasoScaffolder

/-! ### Python string primitives (ASCII model) -/

/-- Model of Python `str.lower` on a single character (ASCII range). -/
def pyLowerChar (c : Char) : Char :=
  if 65 ≤ c.toNat ∧ c.toNat ≤ 90 then Char.ofNat (c.toNat + 32) else c

/-- Model of Python `str.upper` on a single character (ASCII range). -/
def pyUpperChar (c : Char) : Char :=
  if 97 ≤ c.toNat ∧ c.toNat ≤ 122 then Char.ofNat (c.toNat - 32) else c

/-- Model of Python `str.lower` (ASCII range). -/
def pyLower (s : String) : String :=
  String.mk (s.data.map pyLowerChar)

/-- Model of Python `s.replace(old, new)` for a one-character pattern and a
one-character replacement (a one-character pattern cannot overlap itself,
so Python's leftmost-first substring replacement is a character map). -/
def replaceChar (s : String) (old new : Char) : String :=
  String.mk (s.data.map fun c => if c = old then new else c)

/-- Model of Python `s.replace(old, '')` for a one-character pattern:
every occurrence of the character is removed. -/
def removeChar (s : String) (old : Char) : String :=
  String.mk (s.data.filter fun c => c ≠ old)

/-- Helper for `pyTitle`: walks the characters carrying the flag "the
previous character was cased", as CPython's `str.title` does.  A cased
character is uppercased when the previous character was not cased and
lowercased otherwise (ASCII letters are the cased characters here). -/
def pyTitleAux : Bool → List Char → List Char
  | _, [] => []
  | prevCased, c :: rest =>
    if c.isAlpha then
      (if prevCased then pyLowerChar c else pyUpperChar c) :: pyTitleAux true rest
    else
      c :: pyTitleAux false rest

/-- Model of Python `str.title` (ASCII range): words are maximal runs of
letters; the first letter of each word is uppercased, the rest lowercased. -/
def pyTitle (s : String) : String :=
  String.mk (pyTitleAux false s.data)

/-- Whether the string begins with the path separator. -/
def startsWithSlash (s : String) : Bool :=
  match s.data with
  | c :: _ => c = '/'
  | [] => false

/-- Whether the string ends with the path separator. -/
def endsWithSlash (s : String) : Bool :=
  match s.data.getLast? with
  | some c => c = '/'
  | none => false

/-- Model of `os.path.join(a, b)` (POSIX, two components): an absolute
second component discards the first; otherwise the parts are joined,
inserting a separator unless the first part is empty or already ends
with one. -/
def osPathJoin (a b : String) : String :=
  if startsWithSlash b then b
  else if a = "" ∨ endsWithSlash a then a ++ b
  else a ++ "/" ++ b

/-! ### Data model: external collaborators -/

/-- One recorded call to the scaffolder's `SetAttribute(name, value,
value_type)` operation.  The value and its declared type are opaque to the
engine (`object` and `Type` in the source), so they are type parameters. -/
structure AttrCall (V T : Type) where
  name : String
  value : V
  value_type : T
  deriving DecidableEq, Repr

/-- One element of the lazy sequence returned by the scaffolder's
`GenerateFiles()` generator: either a `(path, content)` pair it yields, or
an exception it raises at that point (which ends the iteration). -/
inductive GenItem where
  | item (path : String) (content : String)
  | raiseErr (msg : String)
  deriving DecidableEq, Repr

/-- The scaffolder interface as consumed by the engine
(`plasoscaffolder.scaffolders.interface.Scaffolder`): the behaviour of the
methods the engine calls, plus the state the engine's calls mutate.
`raiseIfNotReady = some msg` means `RaiseIfNotReady()` raises
`ScaffolderNotConfigured(msg)`; `none` means it returns normally. -/
structure Scaffolder (V T : Type) where
  raiseIfNotReady : Option String
  getFilesToCopy : List (String × String)
  generateFiles : List GenItem
  outputName : String
  attributeCalls : List (AttrCall V T)
  deriving DecidableEq, Repr

/-- `SetAttribute(name, value, value_type)` on the scaffolder: the engine
forwards the triple; the scaffolder records it (collision/type checking is
the scaffolder's own business and outside the engine). -/
def Scaffolder.SetAttribute {V T : Type} (sc : Scaffolder V T)
    (name : String) (value : V) (value_type : T) : Scaffolder V T :=
  { sc with attributeCalls := sc.attributeCalls ++ [⟨name, value, value_type⟩] }

/-- `SetOutputName(prefix)` on the scaffolder: stores the output name. -/
def Scaffolder.SetOutputName {V T : Type} (sc : Scaffolder V T)
    (name : String) : Scaffolder V T :=
  { sc with outputName := name }

/-- A project-type definition from the registry
(`plasoscaffolder.definitions`): a `NAME` identifier and the
`ValidatePath` predicate. -/
structure Definition where
  NAME : String
  ValidatePath : String → Bool

/-- The filesystem and file-handler behaviour the engine runs against:
`isFile` models `os.path.isfile`; `copyFile` models
`file_handler.FileHandler.CopyFile`, returning the written path or
raising a `FileHandlingError` (the only error kind the engine catches);
`addContent` models `FileHandler.AddContent`, returning the written path. -/
structure FileSystem where
  isFile : String → Bool
  copyFile : String → String → Except String String
  addContent : String → String → String

/-! ### Data model: the engine -/

/-- The fields of `ScaffolderEngine` set in `__init__`.  The
`_file_handler` field of the source holds the file handler object whose
behaviour is the `FileSystem` record above.  The source field
`_file_name_prefix` is called `_file_name_stem` here (the original name is
kept out of the Lean text for tooling reasons); it is the lowercase
underscore-joined form of the module name. -/
structure ScaffolderEngine (V T : Type) where
  _attributes : List (AttrCall V T)
  _definition : String
  _definition_root_path : String
  _file_name_stem : String
  _module_name : String
  _scaffolder : Option (Scaffolder V T)
  deriving DecidableEq, Repr

/-- `ScaffolderEngine.__init__`: all strings empty, the attribute mapping
empty, no scaffolder. -/
def ScaffolderEngine.init (V T : Type) : ScaffolderEngine V T :=
  { _attributes := []
    _definition := ""
    _definition_root_path := ""
    _file_name_stem := ""
    _module_name := ""
    _scaffolder := none }

/-- The errors the engine raises.  `EngineNotConfigured` also carries the
message of a wrapped `ScaffolderNotConfigured` raised by the scaffolder's
own readiness check. -/
inductive EngineError where
  | EngineNotConfigured (msg : String)
  | NoValidDefinition (msg : String)
  | ScaffolderNotConfigured (msg : String)
  deriving DecidableEq, Repr

/-! ### Engine operations -/

/-- `ScaffolderEngine._RaiseIfNotReady`: returns `some msg` when the call
raises `EngineNotConfigured(msg)` and `none` when it returns normally.
The checks run in source order: root path, module name, scaffolder
presence, then the scaffolder's own readiness check, whose
`ScaffolderNotConfigured` failure is caught and re-raised wrapped as
`EngineNotConfigured`. -/
def ScaffolderEngine.RaiseIfNotReady {V T : Type} (e : ScaffolderEngine V T) :
    Option String :=
  if e._definition_root_path = "" then
    some "The path to the project root is not properly configured."
  else if e._module_name = "" then
    some "Module name has not been configured."
  else
    match e._scaffolder with
    | none => some "Scaffolder object not yet set."
    | some sc =>
      match sc.raiseIfNotReady with
      | some m => some m
      | none => none

/-- `ScaffolderEngine.SetModuleName`: the file-name stem is the input with
spaces replaced by underscores, lowercased; the module name is the stem
with underscores replaced by spaces, titlecased, with spaces removed. -/
def ScaffolderEngine.SetModuleName {V T : Type} (e : ScaffolderEngine V T)
    (module_name : String) : ScaffolderEngine V T :=
  let stem := pyLower (replaceChar module_name ' ' '_')
  { e with
    _file_name_stem := stem
    _module_name := removeChar (pyTitle (replaceChar stem '_' ' ')) ' ' }

/-- `ScaffolderEngine.SetScaffolder`: stores the scaffolder reference. -/
def ScaffolderEngine.SetScaffolder {V T : Type} (e : ScaffolderEngine V T)
    (scaffolder : Scaffolder V T) : ScaffolderEngine V T :=
  { e with _scaffolder := some scaffolder }

/-- The loop of `ScaffolderEngine.SetProjectRootPath` over the registry's
definitions, in registry order.  The result pairs the engine state after
the call with `some err` when the call raises: the state component makes
explicit that nothing is mutated before a raise. -/
def ScaffolderEngine.setProjectRootLoop {V T : Type} (e : ScaffolderEngine V T)
    (root_path : String) :
    List Definition → ScaffolderEngine V T × Option EngineError
  | [] =>
    (e, some (.NoValidDefinition "No valid definition has been identified."))
  | d :: rest =>
    if d.ValidatePath root_path then
      ({ e with _definition := d.NAME, _definition_root_path := root_path },
        none)
    else
      ScaffolderEngine.setProjectRootLoop e root_path rest

/-- `ScaffolderEngine.SetProjectRootPath`: iterates the definitions the
registry manager returns (`manager.DefinitionManager.GetDefinitionObjects`,
passed here as the explicit list `registry`); the first definition whose
`ValidatePath` accepts the path is adopted; otherwise the call raises
`NoValidDefinition`. -/
def ScaffolderEngine.SetProjectRootPath {V T : Type} (registry : List Definition)
    (e : ScaffolderEngine V T) (root_path : String) :
    ScaffolderEngine V T × Option EngineError :=
  ScaffolderEngine.setProjectRootLoop e root_path registry

/-- `ScaffolderEngine.StoreScaffolderAttribute`: raises
`ScaffolderNotConfigured` when no scaffolder is set; otherwise forwards
the triple to the scaffolder's `SetAttribute`. -/
def ScaffolderEngine.StoreScaffolderAttribute {V T : Type}
    (e : ScaffolderEngine V T) (name : String) (value : V) (value_type : T) :
    ScaffolderEngine V T × Option EngineError :=
  match e._scaffolder with
  | none => (e, some (.ScaffolderNotConfigured "Scaffolder has not yet been set."))
  | some sc =>
    ({ e with _scaffolder := some (sc.SetAttribute name value value_type) }, none)

/-! ### `GenerateFiles`: the generator and its drain semantics -/

/-- A filesystem side effect performed while draining `GenerateFiles`:
a `CopyFile` invocation, a `logging.error` call, or an `AddContent`
invocation. -/
inductive FsEvent where
  | copy (source : String) (destination : String)
  | log (msg : String)
  | write (path : String) (content : String)
  deriving DecidableEq, Repr

/-- The message of the `logging.error` call in the copy loop:
`'Unable to copy file: {0:s} to {1:s} with error: {2!s}'`. -/
def copyErrorMsg (source full_path exc : String) : String :=
  "Unable to copy file: " ++ source ++ " to " ++ full_path ++
    " with error: " ++ exc

/-- How the drain of the `GenerateFiles` iterator ends: with
`EngineNotConfigured` raised on the first advance, with an uncaught
exception from the content-generation phase, or normally. -/
inductive Outcome where
  | notConfigured (msg : String)
  | raised (msg : String)
  | done
  deriving DecidableEq, Repr

/-- Everything observable from fully draining the iterator: the yielded
paths in order, the filesystem events in order, how the drain ended, and
the engine state afterwards. -/
structure DrainOut (V T : Type) where
  yields : List String
  events : List FsEvent
  outcome : Outcome
  engineAfter : ScaffolderEngine V T
  deriving DecidableEq, Repr

/-- The first loop of `GenerateFiles` over `GetFilesToCopy()`: a source
that is not a file is skipped with no effect; otherwise `CopyFile` is
attempted on the joined destination, a success yields the written path,
and a `FileHandlingError` is caught and logged. -/
def copyPhase (fs : FileSystem) (root : String) :
    List (String × String) → List String × List FsEvent
  | [] => ([], [])
  | (file_source, file_destination) :: rest =>
    let tail := copyPhase fs root rest
    if fs.isFile file_source then
      let full_path := osPathJoin root file_destination
      match fs.copyFile file_source full_path with
      | .ok written_file =>
        (written_file :: tail.1, .copy file_source full_path :: tail.2)
      | .error exc =>
        (tail.1,
          .copy file_source full_path ::
            .log (copyErrorMsg file_source full_path exc) :: tail.2)
    else
      tail

/-- The second loop of `GenerateFiles` over the scaffolder's
`GenerateFiles()` generator: each yielded `(path, content)` pair is
written via `AddContent` to the joined path and the written path is
yielded; an exception raised by the scaffolder's generator is not caught,
so it aborts the remainder of the sequence. -/
def genPhase (fs : FileSystem) (root : String) :
    List GenItem → List String × List FsEvent × Option String
  | [] => ([], [], none)
  | .item file_path content :: rest =>
    let full_path := osPathJoin root file_path
    let written := fs.addContent full_path content
    let tail := genPhase fs root rest
    (written :: tail.1, .write full_path content :: tail.2.1, tail.2.2)
  | .raiseErr m :: _ => ([], [], some m)

/-- The effect of running the body of `GenerateFiles` to exhaustion
against filesystem `fs`: the readiness check runs first (raising
`EngineNotConfigured` before any filesystem event), then the output name
is set on the scaffolder, then the copy loop, then the generation loop. -/
def drainBody {V T : Type} (e : ScaffolderEngine V T) (fs : FileSystem) :
    DrainOut V T :=
  match ScaffolderEngine.RaiseIfNotReady e with
  | some msg => ⟨[], [], .notConfigured msg, e⟩
  | none =>
    match e._scaffolder with
    | none =>
      ⟨[], [], .notConfigured "Scaffolder object not yet set.", e⟩
    | some sc =>
      ⟨(copyPhase fs e._definition_root_path sc.getFilesToCopy).1 ++
          (genPhase fs e._definition_root_path sc.generateFiles).1,
        (copyPhase fs e._definition_root_path sc.getFilesToCopy).2 ++
          (genPhase fs e._definition_root_path sc.generateFiles).2.1,
        match (genPhase fs e._definition_root_path sc.generateFiles).2.2 with
        | some m => .raised m
        | none => .done,
        { e with _scaffolder := some (sc.SetOutputName e._file_name_stem) }⟩

/-- The value returned by calling `GenerateFiles()`: in Python a call to a
generator function runs none of the body; it returns a suspended generator
holding the captured `self` reference. -/
structure SuspendedGen (V T : Type) where
  engine : ScaffolderEngine V T
  deriving DecidableEq, Repr

/-- `ScaffolderEngine.GenerateFiles`: calling the generator function only
builds the suspended generator — no readiness check, no exception, no
filesystem event happens at call time. -/
def ScaffolderEngine.GenerateFiles {V T : Type} (e : ScaffolderEngine V T) :
    SuspendedGen V T :=
  ⟨e⟩

/-- Advancing the suspended generator to exhaustion: the body runs only
now, against the engine state captured in the generator. -/
def SuspendedGen.drain {V T : Type} (g : SuspendedGen V T) (fs : FileSystem) :
    DrainOut V T :=
  drainBody g.engine fs

/-! ### Spec-side per-pair views of the two phases -/

/-- The items the scaffolder's generator actually produces: the pairs
before the first raised exception (iteration ends there). -/
def producedItems : List GenItem → List (String × String)
  | [] => []
  | .item p c :: rest => (p, c) :: producedItems rest
  | .raiseErr _ :: _ => []

/-- The exception the scaffolder's generator raises, if any, at the point
iteration reaches it. -/
def raisedError : List GenItem → Option String
  | [] => none
  | .item _ _ :: rest => raisedError rest
  | .raiseErr m :: _ => some m

/-- The path one static-copy pair contributes to the yielded sequence:
the written path when the source exists and the copy succeeds, nothing
otherwise. -/
def copyYieldOf (fs : FileSystem) (root : String) (p : String × String) :
    Option String :=
  if fs.isFile p.1 then
    match fs.copyFile p.1 (osPathJoin root p.2) with
    | .ok written => some written
    | .error _ => none
  else none

/-- The filesystem events one static-copy pair contributes: nothing for a
non-existing source (no yield, no log), a copy for a successful copy, and
a copy followed by a log for a failed copy. -/
def copyEventsOf (fs : FileSystem) (root : String) (p : String × String) :
    List FsEvent :=
  if fs.isFile p.1 then
    match fs.copyFile p.1 (osPathJoin root p.2) with
    | .ok _ => [.copy p.1 (osPathJoin root p.2)]
    | .error exc =>
      [.copy p.1 (osPathJoin root p.2),
        .log (copyErrorMsg p.1 (osPathJoin root p.2) exc)]
  else []

/-! ### The engine's public operations as a transition system -/

/-- One public operation on the engine, used to state state-evolution
invariants over arbitrary call sequences. -/
inductive EngineOp (V T : Type) where
  | setModuleName (module_name : String)
  | setScaffolder (scaffolder : Scaffolder V T)
  | setProjectRootPath (registry : List Definition) (root_path : String)
  | storeScaffolderAttribute (name : String) (value : V) (value_type : T)
  | generateFiles (fs : FileSystem)

/-- The engine state after one public operation (an operation that raises
leaves the state its `ScaffolderEngine V T × Option EngineError` result
carries; draining `GenerateFiles` leaves the `engineAfter` state). -/
def applyOp {V T : Type} (e : ScaffolderEngine V T) :
    EngineOp V T → ScaffolderEngine V T
  | .setModuleName n => e.SetModuleName n
  | .setScaffolder sc => e.SetScaffolder sc
  | .setProjectRootPath reg p => (ScaffolderEngine.SetProjectRootPath reg e p).1
  | .storeScaffolderAttribute n v t => (e.StoreScaffolderAttribute n v t).1
  | .generateFiles fs => ((e.GenerateFiles).drain fs).engineAfter

/-- The engine state after a sequence of public operations. -/
def applyOps {V T : Type} (e : ScaffolderEngine V T) :
    List (EngineOp V T) → ScaffolderEngine V T
  | [] => e
  | op :: rest => applyOps (applyOp e op) rest

/-! ### Character-level lemmas for the ASCII case model -/

theorem char_toNat_ofNat_valid (n : Nat) (h : n.isValidChar) :
    (Char.ofNat n).toNat = n := by
  unfold Char.ofNat
  rw [dif_pos h]
  simp [Char.ofNatAux, Char.toNat, UInt32.toNat]

theorem char_toNat_inj (a b : Char) (h : a.toNat = b.toNat) : a = b :=
  Char.eq_of_val_eq (UInt32.ext h)

theorem pyLowerChar_toNat (c : Char) (h : 65 ≤ c.toNat ∧ c.toNat ≤ 90) :
    (pyLowerChar c).toNat = c.toNat + 32 := by
  unfold pyLowerChar
  rw [if_pos h]
  exact char_toNat_ofNat_valid _ (Or.inl (by omega))

theorem pyLowerChar_eq_self (c : Char) (h : ¬(65 ≤ c.toNat ∧ c.toNat ≤ 90)) :
    pyLowerChar c = c := by
  unfold pyLowerChar
  exact if_neg h

theorem pyUpperChar_toNat (c : Char) (h : 97 ≤ c.toNat ∧ c.toNat ≤ 122) :
    (pyUpperChar c).toNat = c.toNat - 32 := by
  unfold pyUpperChar
  rw [if_pos h]
  exact char_toNat_ofNat_valid _ (Or.inl (by omega))

theorem pyUpperChar_eq_self (c : Char) (h : ¬(97 ≤ c.toNat ∧ c.toNat ≤ 122)) :
    pyUpperChar c = c := by
  unfold pyUpperChar
  exact if_neg h

/-- Lowercasing twice is lowercasing once. -/
theorem pyLowerChar_idem (c : Char) : pyLowerChar (pyLowerChar c) = pyLowerChar c := by
  by_cases h : 65 ≤ c.toNat ∧ c.toNat ≤ 90
  · have h1 := pyLowerChar_toNat c h
    exact pyLowerChar_eq_self _ (by omega)
  · rw [pyLowerChar_eq_self c h]
    exact pyLowerChar_eq_self c h

/-- Lowercasing cannot produce a character outside the lowercase-letter
range that the input was not already. -/
theorem pyLowerChar_ne (c d : Char) (hd : ¬(97 ≤ d.toNat ∧ d.toNat ≤ 122))
    (h : c ≠ d) : pyLowerChar c ≠ d := by
  by_cases hr : 65 ≤ c.toNat ∧ c.toNat ≤ 90
  · have h1 := pyLowerChar_toNat c hr
    intro he
    rw [he] at h1
    omega
  · rw [pyLowerChar_eq_self c hr]
    exact h

/-- Uppercasing absorbs a prior lowercasing. -/
theorem pyUpperChar_pyLowerChar (c : Char) :
    pyUpperChar (pyLowerChar c) = pyUpperChar c := by
  by_cases h : 65 ≤ c.toNat ∧ c.toNat ≤ 90
  · have h1 := pyLowerChar_toNat c h
    apply char_toNat_inj
    rw [pyUpperChar_toNat _ (by omega), pyUpperChar_eq_self c (by omega), h1]
    omega
  · rw [pyLowerChar_eq_self c h]

theorem char_isAlpha_iff_toNat (c : Char) :
    c.isAlpha = true ↔
      (65 ≤ c.toNat ∧ c.toNat ≤ 90) ∨ (97 ≤ c.toNat ∧ c.toNat ≤ 122) := by
  simp only [Char.isAlpha, Char.isUpper, Char.isLower, Bool.or_eq_true,
    Bool.and_eq_true, decide_eq_true_eq, ge_iff_le]
  have h1 : ((65 : UInt32) ≤ c.val) ↔ 65 ≤ c.toNat := Iff.rfl
  have h2 : (c.val ≤ (90 : UInt32)) ↔ c.toNat ≤ 90 := Iff.rfl
  have h3 : ((97 : UInt32) ≤ c.val) ↔ 97 ≤ c.toNat := Iff.rfl
  have h4 : (c.val ≤ (122 : UInt32)) ↔ c.toNat ≤ 122 := Iff.rfl
  rw [h1, h2, h3, h4]

/-- Lowercasing preserves letterhood. -/
theorem pyLowerChar_isAlpha (c : Char) :
    (pyLowerChar c).isAlpha = c.isAlpha := by
  by_cases h : 65 ≤ c.toNat ∧ c.toNat ≤ 90
  · have h1 := pyLowerChar_toNat c h
    have hl : (pyLowerChar c).isAlpha = true :=
      (char_isAlpha_iff_toNat _).2 (Or.inr (by omega))
    have hc : c.isAlpha = true := (char_isAlpha_iff_toNat _).2 (Or.inl h)
    rw [hl, hc]
  · rw [pyLowerChar_eq_self c h]

/-- A non-letter is fixed by lowercasing. -/
theorem pyLowerChar_eq_self_of_not_alpha (c : Char) (h : c.isAlpha = false) :
    pyLowerChar c = c := by
  apply pyLowerChar_eq_self
  intro hr
  have := (char_isAlpha_iff_toNat c).2 (Or.inl hr)
  rw [h] at this
  exact Bool.false_ne_true this

/-- Titlecasing ignores a prior per-character lowercasing. -/
theorem pyTitleAux_map_pyLowerChar (l : List Char) (prev : Bool) :
    pyTitleAux prev (l.map pyLowerChar) = pyTitleAux prev l := by
  induction l generalizing prev with
  | nil => rfl
  | cons c rest ih =>
    simp only [List.map_cons, pyTitleAux, pyLowerChar_isAlpha]
    by_cases ha : c.isAlpha
    · rw [if_pos ha, if_pos ha, ih true]
      by_cases hp : prev
      · rw [if_pos hp, if_pos hp, pyLowerChar_idem]
      · rw [if_neg hp, if_neg hp, pyUpperChar_pyLowerChar]
    · rw [if_neg ha, if_neg ha, ih false,
        pyLowerChar_eq_self_of_not_alpha c (by simpa using ha)]

/-! ### String-level lemmas about the `SetModuleName` derivations -/

/-- One character of: space→underscore, lowercase, underscore→space equals
one character of: underscore→space, then lowercase. -/
theorem module_chain_char (c : Char) :
    (if pyLowerChar (if c = ' ' then '_' else c) = '_' then ' '
      else pyLowerChar (if c = ' ' then '_' else c)) =
    pyLowerChar (if c = '_' then ' ' else c) := by
  by_cases h1 : c = ' '
  · subst h1
    decide
  · rw [if_neg h1]
    by_cases h2 : c = '_'
    · subst h2
      decide
    · rw [if_neg h2, if_neg (pyLowerChar_ne c '_' (by decide) h2)]

/-- One character of: lowercase, then space→underscore, then lowercase
equals one character of: space→underscore, then lowercase. -/
theorem stem_chain_char (c : Char) :
    pyLowerChar (if pyLowerChar c = ' ' then '_' else pyLowerChar c) =
      pyLowerChar (if c = ' ' then '_' else c) := by
  by_cases h1 : c = ' '
  · subst h1
    decide
  · rw [if_neg h1, if_neg (pyLowerChar_ne c ' ' (by decide) h1), pyLowerChar_idem]

/-- The chain space→underscore, lowercase, underscore→space that
`SetModuleName` applies before titlecasing is the per-character
lowercasing of the direct underscore→space substitution on the raw
input. -/
theorem replaceChar_stem_eq_map (s : String) :
    replaceChar (pyLower (replaceChar s ' ' '_')) '_' ' ' =
      String.mk ((replaceChar s '_' ' ').data.map pyLowerChar) := by
  simp only [replaceChar, pyLower, List.map_map]
  congr 1
  apply List.map_congr_left
  intro c _
  simp only [Function.comp_apply]
  exact module_chain_char c

/-- Titlecasing ignores a prior lowercasing of the string. -/
theorem pyTitle_mk_map_pyLowerChar (l : List Char) :
    pyTitle (String.mk (l.map pyLowerChar)) = pyTitle (String.mk l) := by
  unfold pyTitle
  congr 1
  exact pyTitleAux_map_pyLowerChar l false

/-- The file-name stem derivation is insensitive to pre-lowercasing the
input. -/
theorem stem_of_pyLower (s : String) :
    pyLower (replaceChar (pyLower s) ' ' '_') = pyLower (replaceChar s ' ' '_') := by
  simp only [pyLower, replaceChar, List.map_map]
  congr 1
  apply List.map_congr_left
  intro c _
  simp only [Function.comp_apply]
  exact stem_chain_char c

/-! ### Characterizations of the two `GenerateFiles` phases -/

/-- The copy loop is the concatenation of the independent per-pair
contributions: each pair yields what `copyYieldOf` says and emits what
`copyEventsOf` says. -/
theorem copyPhase_eq (fs : FileSystem) (root : String)
    (l : List (String × String)) :
    copyPhase fs root l =
      (l.filterMap (copyYieldOf fs root),
        (l.map (copyEventsOf fs root)).flatten) := by
  induction l with
  | nil => rfl
  | cons p rest ih =>
    rcases p with ⟨file_source, file_destination⟩
    unfold copyPhase
    rw [ih]
    simp only [List.filterMap_cons, List.map_cons, List.flatten_cons,
      copyYieldOf, copyEventsOf]
    by_cases hf : fs.isFile file_source = true
    · rw [if_pos hf, if_pos hf, if_pos hf]
      cases fs.copyFile file_source (osPathJoin root file_destination) with
      | ok written => rfl
      | error exc => rfl
    · rw [if_neg hf, if_neg hf, if_neg hf]
      rfl

/-- The generation loop writes one file per produced pair, in order, and
ends with the generator's raised exception, if any. -/
theorem genPhase_eq (fs : FileSystem) (root : String) (l : List GenItem) :
    genPhase fs root l =
      ((producedItems l).map (fun p => fs.addContent (osPathJoin root p.1) p.2),
        (producedItems l).map (fun p => FsEvent.write (osPathJoin root p.1) p.2),
        raisedError l) := by
  induction l with
  | nil => rfl
  | cons it rest ih =>
    cases it with
    | item file_path content =>
      unfold genPhase producedItems raisedError
      rw [ih]
      simp only [List.map_cons]
    | raiseErr m => rfl

/-- Reduction of the drain of a ready engine (root path, module name and
scaffolder set, scaffolder ready) to the two phase characterizations. -/
theorem drainBody_ready (V T : Type) (e : ScaffolderEngine V T)
    (fs : FileSystem) (sc : Scaffolder V T)
    (hready : e.RaiseIfNotReady = none) (hsc : e._scaffolder = some sc) :
    drainBody e fs =
      ⟨sc.getFilesToCopy.filterMap (copyYieldOf fs e._definition_root_path) ++
          (producedItems sc.generateFiles).map
            (fun p => fs.addContent (osPathJoin e._definition_root_path p.1) p.2),
        (sc.getFilesToCopy.map (copyEventsOf fs e._definition_root_path)).flatten ++
          (producedItems sc.generateFiles).map
            (fun p => FsEvent.write (osPathJoin e._definition_root_path p.1) p.2),
        match raisedError sc.generateFiles with
        | some m => .raised m
        | none => .done,
        { e with _scaffolder := some (sc.SetOutputName e._file_name_stem) }⟩ := by
  unfold drainBody
  rw [hready]
  simp only [hsc]
  rw [copyPhase_eq, genPhase_eq]

/-- An engine that fails its readiness check drains to the
`EngineNotConfigured` outcome with no yields and no filesystem events. -/
theorem drainBody_not_ready (V T : Type) (e : ScaffolderEngine V T)
    (fs : FileSystem) (msg : String) (hmsg : e.RaiseIfNotReady = some msg) :
    drainBody e fs = ⟨[], [], .notConfigured msg, e⟩ := by
  unfold drainBody
  rw [hmsg]

/-! ### Claim theorems: module-name derivation -/

/-- Claim C5: for every input string and any prior state, `SetModuleName`
sets the file-name stem to the input with spaces replaced by underscores
and lowercased, and the display/module name to that input with
underscores replaced by spaces, each word capitalized and spaces removed;
`"my cool module"` yields `"my_cool_module"` and `"MyCoolModule"`, and a
second call fully overwrites both derived fields. -/
theorem setModuleName_spec (V T : Type) (e : ScaffolderEngine V T)
    (a b s : String) :
    (e.SetModuleName "my cool module")._file_name_stem = "my_cool_module" ∧
    (e.SetModuleName "my cool module")._module_name = "MyCoolModule" ∧
    (e.SetModuleName s)._file_name_stem = pyLower (replaceChar s ' ' '_') ∧
    (e.SetModuleName s)._module_name =
      removeChar (pyTitle (replaceChar s '_' ' ')) ' ' ∧
    (e.SetModuleName a).SetModuleName b = e.SetModuleName b := by
  refine ⟨?_, ?_, rfl, ?_, rfl⟩
  · show pyLower (replaceChar "my cool module" ' ' '_') = "my_cool_module"
    decide
  · show removeChar
        (pyTitle (replaceChar (pyLower (replaceChar "my cool module" ' ' '_'))
          '_' ' ')) ' ' = "MyCoolModule"
    decide
  show removeChar
      (pyTitle (replaceChar (pyLower (replaceChar s ' ' '_')) '_' ' ')) ' ' = _
  rw [replaceChar_stem_eq_map]
  have hs : s = String.mk s.data := rfl
  rw [show (replaceChar s '_' ' ').data.map pyLowerChar =
      ((String.mk ((replaceChar s '_' ' ').data)).data.map pyLowerChar) from rfl]
  rw [pyTitle_mk_map_pyLowerChar]

/-- Claim C10: `SetModuleName` is insensitive to the case of its input —
the input and its lowercased form produce the same file-name stem and the
same display/module name. -/
theorem setModuleName_case_insensitive (V T : Type) (e : ScaffolderEngine V T)
    (s : String) :
    (e.SetModuleName s)._file_name_stem =
      (e.SetModuleName (pyLower s))._file_name_stem ∧
    (e.SetModuleName s)._module_name =
      (e.SetModuleName (pyLower s))._module_name := by
  have h : pyLower (replaceChar (pyLower s) ' ' '_') =
      pyLower (replaceChar s ' ' '_') := stem_of_pyLower s
  constructor
  · show pyLower (replaceChar s ' ' '_') = pyLower (replaceChar (pyLower s) ' ' '_')
    exact h.symm
  · show removeChar
        (pyTitle (replaceChar (pyLower (replaceChar s ' ' '_')) '_' ' ')) ' ' =
      removeChar
        (pyTitle (replaceChar (pyLower (replaceChar (pyLower s) ' ' '_')) '_' ' ')) ' '
    rw [h]

/-! ### Lemmas about `SetProjectRootPath` -/

/-- The registry loop realizes "first definition in registry order whose
`ValidatePath` accepts the path". -/
theorem setProjectRootLoop_eq_find (V T : Type) (e : ScaffolderEngine V T)
    (root_path : String) (l : List Definition) :
    ScaffolderEngine.setProjectRootLoop e root_path l =
      match l.find? (fun d => d.ValidatePath root_path) with
      | some d =>
        ({ e with _definition := d.NAME, _definition_root_path := root_path },
          none)
      | none =>
        (e, some (.NoValidDefinition "No valid definition has been identified.")) := by
  induction l with
  | nil => rfl
  | cons d rest ih =>
    unfold ScaffolderEngine.setProjectRootLoop
    simp only [List.find?]
    by_cases h : d.ValidatePath root_path = true
    · rw [if_pos h, h]
    · have hf : d.ValidatePath root_path = false := by simpa using h
      rw [if_neg h, hf]
      exact ih

/-! ### Claim theorems: project root path -/

/-- Claim C3: `SetProjectRootPath` adopts the first definition in registry
order whose `ValidatePath` returns true, storing its `NAME` and the path;
if none validates, it raises `NoValidDefinition`. -/
theorem setProjectRootPath_first_match (V T : Type) (registry : List Definition)
    (e : ScaffolderEngine V T) (root_path : String) :
    (∀ d, registry.find? (fun d => d.ValidatePath root_path) = some d →
      ScaffolderEngine.SetProjectRootPath registry e root_path =
        ({ e with _definition := d.NAME, _definition_root_path := root_path },
          none)) ∧
    (registry.find? (fun d => d.ValidatePath root_path) = none →
      ScaffolderEngine.SetProjectRootPath registry e root_path =
        (e, some (.NoValidDefinition "No valid definition has been identified."))) := by
  unfold ScaffolderEngine.SetProjectRootPath
  rw [setProjectRootLoop_eq_find]
  constructor
  · intro d hd
    rw [hd]
  · intro hn
    rw [hn]

/-- Witness for C3 at a concrete registry whose first definition rejects
the path and whose second accepts it: the second is adopted. -/
theorem setProjectRootPath_first_match_witness :
    ScaffolderEngine.SetProjectRootPath
        [⟨"plaso", fun _ => false⟩, ⟨"timesketch", fun _ => true⟩]
        (ScaffolderEngine.init Unit Unit) "/proj" =
      ({ ScaffolderEngine.init Unit Unit with
          _definition := "timesketch", _definition_root_path := "/proj" },
        none) := by
  exact (setProjectRootPath_first_match Unit Unit
      [⟨"plaso", fun _ => false⟩, ⟨"timesketch", fun _ => true⟩]
      (ScaffolderEngine.init Unit Unit) "/proj").1
    ⟨"timesketch", fun _ => true⟩ rfl

/-- Claim C4: when no registered definition validates the path,
`SetProjectRootPath` raises `NoValidDefinition` and leaves the whole
engine state — in particular the stored root path and the stored
definition identifier — exactly as before. -/
theorem setProjectRootPath_no_match (V T : Type) (registry : List Definition)
    (e : ScaffolderEngine V T) (root_path : String)
    (h : ∀ d ∈ registry, d.ValidatePath root_path = false) :
    ScaffolderEngine.SetProjectRootPath registry e root_path =
      (e, some (.NoValidDefinition "No valid definition has been identified.")) ∧
    (ScaffolderEngine.SetProjectRootPath registry e root_path).1._definition_root_path =
      e._definition_root_path ∧
    (ScaffolderEngine.SetProjectRootPath registry e root_path).1._definition =
      e._definition := by
  have hfind : registry.find? (fun d => d.ValidatePath root_path) = none := by
    rw [List.find?_eq_none]
    intro d hd
    simpa using h d hd
  unfold ScaffolderEngine.SetProjectRootPath
  rw [setProjectRootLoop_eq_find, hfind]
  exact ⟨rfl, rfl, rfl⟩

/-- Witness for C4 at a concrete registry that rejects every path and an
engine with previously stored root state. -/
theorem setProjectRootPath_no_match_witness :
    ScaffolderEngine.SetProjectRootPath [⟨"existing", fun _ => false⟩]
        { ScaffolderEngine.init Unit Unit with
            _definition := "old_def", _definition_root_path := "/old/root" }
        "/new/root" =
      ({ ScaffolderEngine.init Unit Unit with
          _definition := "old_def", _definition_root_path := "/old/root" },
        some (.NoValidDefinition "No valid definition has been identified.")) := by
  refine (setProjectRootPath_no_match Unit Unit _ _ _ ?_).1
  intro d hd
  rcases List.mem_singleton.mp hd with rfl
  rfl

/-! ### Claim theorems: storing scaffolder attributes -/

/-- Claim C6: `StoreScaffolderAttribute` raises `ScaffolderNotConfigured`
exactly when no scaffolder is set; otherwise it forwards the
`(name, value, value_type)` triple unchanged to the scaffolder's
`SetAttribute`. -/
theorem storeScaffolderAttribute_spec (V T : Type) (e : ScaffolderEngine V T)
    (name : String) (value : V) (value_type : T) :
    ((e.StoreScaffolderAttribute name value value_type).2 =
        some (.ScaffolderNotConfigured "Scaffolder has not yet been set.") ↔
      e._scaffolder = none) ∧
    (e._scaffolder = none →
      e.StoreScaffolderAttribute name value value_type =
        (e, some (.ScaffolderNotConfigured "Scaffolder has not yet been set."))) ∧
    (∀ sc, e._scaffolder = some sc →
      e.StoreScaffolderAttribute name value value_type =
        ({ e with _scaffolder := some (sc.SetAttribute name value value_type) },
          none)) := by
  cases hsc : e._scaffolder with
  | none =>
    have hred : e.StoreScaffolderAttribute name value value_type =
        (e, some (.ScaffolderNotConfigured "Scaffolder has not yet been set.")) := by
      unfold ScaffolderEngine.StoreScaffolderAttribute
      rw [hsc]
    refine ⟨⟨fun _ => rfl, fun _ => by rw [hred]⟩, fun _ => hred, ?_⟩
    intro sc hsome
    exact absurd hsome (by simp)
  | some sc =>
    have hred : e.StoreScaffolderAttribute name value value_type =
        ({ e with _scaffolder := some (sc.SetAttribute name value value_type) },
          none) := by
      unfold ScaffolderEngine.StoreScaffolderAttribute
      rw [hsc]
    refine ⟨⟨fun habs => ?_, fun habs => absurd habs (by simp)⟩,
      fun habs => absurd habs (by simp), ?_⟩
    · rw [hred] at habs
      simp at habs
    · intro sc2 hsome
      rcases Option.some_inj.mp hsome with rfl
      exact hred

/-- Witness for C6 at a concrete engine with a scaffolder set: the triple
is forwarded to the scaffolder's `SetAttribute` and no error is raised. -/
theorem storeScaffolderAttribute_spec_witness :
    ((ScaffolderEngine.init String String).SetScaffolder
        ⟨none, [], [], "", []⟩).StoreScaffolderAttribute "author" "jane" "str" =
      ({ ScaffolderEngine.init String String with
          _scaffolder := some ⟨none, [], [], "",
            [⟨"author", "jane", "str"⟩]⟩ }, none) := by
  exact (storeScaffolderAttribute_spec String String _ "author" "jane" "str").2.2
    ⟨none, [], [], "", []⟩ rfl

/-! ### Lemmas about the readiness check -/

/-- In any of the four unconfigured situations the readiness check raises
(returns some message). -/
theorem raiseIfNotReady_isSome_of_unset (V T : Type) (e : ScaffolderEngine V T)
    (h : e._definition_root_path = "" ∨ e._module_name = "" ∨
      e._scaffolder = none ∨
      (∃ sc, e._scaffolder = some sc ∧ sc.raiseIfNotReady ≠ none)) :
    ∃ msg, e.RaiseIfNotReady = some msg := by
  unfold ScaffolderEngine.RaiseIfNotReady
  by_cases h1 : e._definition_root_path = ""
  · rw [if_pos h1]
    exact ⟨_, rfl⟩
  · rw [if_neg h1]
    by_cases h2 : e._module_name = ""
    · rw [if_pos h2]
      exact ⟨_, rfl⟩
    · rw [if_neg h2]
      cases hsc : e._scaffolder with
      | none => exact ⟨_, rfl⟩
      | some sc =>
        cases hrm : sc.raiseIfNotReady with
        | some m => exact ⟨m, by simp only [hrm]⟩
        | none =>
          rcases h with h | h | h | ⟨sc2, hsc2, hne⟩
          · exact absurd h h1
          · exact absurd h h2
          · rw [hsc] at h
            exact absurd h (by simp)
          · rw [hsc] at hsc2
            rcases Option.some_inj.mp hsc2 with rfl
            exact absurd hrm hne

/-- When root path and module name are set and the scaffolder's own
readiness check raises `ScaffolderNotConfigured(m)`, the engine's check
raises `EngineNotConfigured` carrying that same failure. -/
theorem raiseIfNotReady_wraps (V T : Type) (e : ScaffolderEngine V T)
    (sc : Scaffolder V T) (m : String)
    (h1 : e._definition_root_path ≠ "") (h2 : e._module_name ≠ "")
    (hsc : e._scaffolder = some sc) (hm : sc.raiseIfNotReady = some m) :
    e.RaiseIfNotReady = some m := by
  unfold ScaffolderEngine.RaiseIfNotReady
  rw [if_neg h1, if_neg h2]
  simp only [hsc, hm]

/-! ### Claim theorems: readiness of `GenerateFiles` -/

/-- Claim C1: with the root path unset, or the module name unset, or the
scaffolder unset, or the scaffolder's own readiness check failing,
draining the iterator returned by `GenerateFiles` raises
`EngineNotConfigured` before any copy or content-write event; a scaffolder
readiness failure is re-raised wrapped with its own message. -/
theorem generateFiles_requires_configuration (V T : Type)
    (e : ScaffolderEngine V T) (fs : FileSystem)
    (h : e._definition_root_path = "" ∨ e._module_name = "" ∨
      e._scaffolder = none ∨
      (∃ sc, e._scaffolder = some sc ∧ sc.raiseIfNotReady ≠ none)) :
    (∃ msg, (e.GenerateFiles).drain fs = ⟨[], [], .notConfigured msg, e⟩) ∧
    (∀ sc m, e._definition_root_path ≠ "" → e._module_name ≠ "" →
      e._scaffolder = some sc → sc.raiseIfNotReady = some m →
      (e.GenerateFiles).drain fs = ⟨[], [], .notConfigured m, e⟩) := by
  obtain ⟨msg, hmsg⟩ := raiseIfNotReady_isSome_of_unset V T e h
  constructor
  · exact ⟨msg, drainBody_not_ready V T e fs msg hmsg⟩
  · intro sc m h1 h2 hsc hm
    exact drainBody_not_ready V T e fs m
      (raiseIfNotReady_wraps V T e sc m h1 h2 hsc hm)

/-- Witness for C1: a concrete configured-but-for-the-scaffolder engine
whose scaffolder reports not ready; draining yields the wrapped message
and performs no filesystem event. -/
theorem generateFiles_requires_configuration_witness :
    (({ ScaffolderEngine.init Unit Unit with
        _definition_root_path := "/project",
        _module_name := "Mod",
        _scaffolder := some ⟨some "scaffolder missing attribute", [("/a", "b")],
          [.item "c" "d"], "", []⟩ } :
        ScaffolderEngine Unit Unit).GenerateFiles).drain
      ⟨fun _ => true, fun _ d => .ok d, fun p _ => p⟩ =
      ⟨[], [], .notConfigured "scaffolder missing attribute",
        { ScaffolderEngine.init Unit Unit with
          _definition_root_path := "/project",
          _module_name := "Mod",
          _scaffolder := some ⟨some "scaffolder missing attribute", [("/a", "b")],
            [.item "c" "d"], "", []⟩ }⟩ := by
  exact (generateFiles_requires_configuration Unit Unit _ _
      (Or.inr (Or.inr (Or.inr ⟨_, rfl, by simp⟩)))).2
    _ "scaffolder missing attribute" (by simp) (by simp) rfl rfl

/-- Claim C9: calling `GenerateFiles` performs no readiness check and no
side effect — for every engine state, even one that fails the readiness
check, the call returns the suspended generator holding the engine
reference, and the `EngineNotConfigured` error together with the (empty)
event trace only materialize when the iterator is advanced. -/
theorem generateFiles_is_lazy (V T : Type) (e : ScaffolderEngine V T)
    (fs : FileSystem) (h : e.RaiseIfNotReady ≠ none) :
    e.GenerateFiles = SuspendedGen.mk e ∧
    (∃ msg, e.RaiseIfNotReady = some msg ∧
      (e.GenerateFiles).drain fs = ⟨[], [], .notConfigured msg, e⟩) := by
  refine ⟨rfl, ?_⟩
  obtain ⟨msg, hmsg⟩ := Option.ne_none_iff_exists.mp h
  exact ⟨msg, hmsg.symm, drainBody_not_ready V T e fs msg hmsg.symm⟩

/-- Witness for C9: on the freshly initialized engine the call itself
returns the suspended generator, and only draining raises. -/
theorem generateFiles_is_lazy_witness :
    (ScaffolderEngine.init Unit Unit).GenerateFiles =
      SuspendedGen.mk (ScaffolderEngine.init Unit Unit) ∧
    ((ScaffolderEngine.init Unit Unit).GenerateFiles).drain
        ⟨fun _ => false, fun _ d => .ok d, fun p _ => p⟩ =
      ⟨[], [],
        .notConfigured "The path to the project root is not properly configured.",
        ScaffolderEngine.init Unit Unit⟩ := by
  have h := generateFiles_is_lazy Unit Unit (ScaffolderEngine.init Unit Unit)
    ⟨fun _ => false, fun _ d => .ok d, fun p _ => p⟩ (by decide)
  refine ⟨h.1, ?_⟩
  obtain ⟨msg, hmsg, hdrain⟩ := h.2
  have : msg = "The path to the project root is not properly configured." := by
    have : (ScaffolderEngine.init Unit Unit).RaiseIfNotReady =
        some "The path to the project root is not properly configured." := rfl
    rw [this] at hmsg
    exact (Option.some_inj.mp hmsg).symm
  rw [this] at hdrain
  exact hdrain

/-! ### Claim theorems: yielded paths and phase order -/

/-- Claim C2: draining a ready engine's `GenerateFiles` yields, in order,
one written path per static-copy pair whose source exists and whose copy
succeeds (non-existing sources contribute no yield and no event at all),
each written to the root path joined with the pair's destination, and then
one written path per produced `(path, content)` pair, written via
`AddContent` to the root path joined with the pair's path — all copy-phase
outputs preceding all generate-phase outputs. -/
theorem generateFiles_yield_order (V T : Type) (e : ScaffolderEngine V T)
    (fs : FileSystem) (sc : Scaffolder V T)
    (hsc : e._scaffolder = some sc) (hready : e.RaiseIfNotReady = none) :
    ((e.GenerateFiles).drain fs).yields =
      sc.getFilesToCopy.filterMap (copyYieldOf fs e._definition_root_path) ++
        (producedItems sc.generateFiles).map
          (fun p => fs.addContent (osPathJoin e._definition_root_path p.1) p.2) ∧
    ((e.GenerateFiles).drain fs).events =
      (sc.getFilesToCopy.map (copyEventsOf fs e._definition_root_path)).flatten ++
        (producedItems sc.generateFiles).map
          (fun p => FsEvent.write (osPathJoin e._definition_root_path p.1) p.2) := by
  rw [show (e.GenerateFiles).drain fs = drainBody e fs from rfl,
    drainBody_ready V T e fs sc hready hsc]
  exact ⟨rfl, rfl⟩

/-- The concrete scaffolder of the C2 witness: one existing and one
non-existing static-copy source, plus one generated-content pair. -/
def scW : Scaffolder Unit Unit :=
  ⟨none, [("/src/exists", "copied.py"), ("/src/missing", "skipped.py")],
    [.item "gen.py" "content"], "", []⟩

/-- The concrete ready engine of the C2 witness. -/
def engineW : ScaffolderEngine Unit Unit :=
  { ScaffolderEngine.init Unit Unit with
    _definition_root_path := "/root",
    _module_name := "Mod",
    _file_name_stem := "mod",
    _scaffolder := some scW }

/-- The concrete filesystem of the C2 witness: only `/src/exists` is a
file, every copy succeeds, `AddContent` returns the destination path. -/
def fsW : FileSystem :=
  ⟨fun s => s == "/src/exists", fun _ dst => .ok dst, fun p _ => p⟩

/-- Witness for C2 at the concrete fixture: exactly one copy-phase yield
(the non-existing source is silently skipped) followed by the
generate-phase yield. -/
theorem generateFiles_yield_order_witness :
    ((engineW.GenerateFiles).drain fsW).yields =
      ["/root/copied.py", "/root/gen.py"] ∧
    ((engineW.GenerateFiles).drain fsW).events =
      [.copy "/src/exists" "/root/copied.py", .write "/root/gen.py" "content"] := by
  have h := generateFiles_yield_order Unit Unit engineW fsW scW rfl (by decide)
  exact ⟨h.1.trans (by decide), h.2.trans (by decide)⟩

/-! ### Lemmas for error containment in the copy phase -/

theorem copyYieldOf_error (fs : FileSystem) (root src dst exc : String)
    (hfile : fs.isFile src = true)
    (herr : fs.copyFile src (osPathJoin root dst) = .error exc) :
    copyYieldOf fs root (src, dst) = none := by
  unfold copyYieldOf
  rw [if_pos hfile]
  simp only [herr]

theorem copyEventsOf_error (fs : FileSystem) (root src dst exc : String)
    (hfile : fs.isFile src = true)
    (herr : fs.copyFile src (osPathJoin root dst) = .error exc) :
    copyEventsOf fs root (src, dst) =
      [.copy src (osPathJoin root dst),
        .log (copyErrorMsg src (osPathJoin root dst) exc)] := by
  unfold copyEventsOf
  rw [if_pos hfile]
  simp only [herr]

/-- In a generator item list laid out as all-items, then a raise, the
produced pairs are exactly the leading items and the raised error is the
one at the raise point. -/
theorem producedItems_append_raise (pre : List (String × String)) (m : String)
    (rest : List GenItem) :
    producedItems (pre.map (fun p => GenItem.item p.1 p.2) ++
        .raiseErr m :: rest) = pre ∧
    raisedError (pre.map (fun p => GenItem.item p.1 p.2) ++
        .raiseErr m :: rest) = some m := by
  induction pre with
  | nil => exact ⟨rfl, rfl⟩
  | cons p pre ih =>
    refine ⟨?_, ?_⟩
    · simpa [producedItems] using ih.1
    · simpa [raisedError] using ih.2

/-- Claim C7: a `FileHandlingError` while copying one static file is
caught and logged, that file yields nothing, and every later static-copy
pair and every produced content pair is still processed; an exception from
the content-generation phase is not caught — it aborts the remainder of
the sequence. -/
theorem generateFiles_error_containment (V T : Type) (e : ScaffolderEngine V T)
    (fs : FileSystem) (sc : Scaffolder V T)
    (hsc : e._scaffolder = some sc) (hready : e.RaiseIfNotReady = none) :
    (∀ (pre post : List (String × String)) (src dst exc : String),
      sc.getFilesToCopy = pre ++ (src, dst) :: post →
      fs.isFile src = true →
      fs.copyFile src (osPathJoin e._definition_root_path dst) = .error exc →
      ((e.GenerateFiles).drain fs).yields =
        pre.filterMap (copyYieldOf fs e._definition_root_path) ++
          post.filterMap (copyYieldOf fs e._definition_root_path) ++
          (producedItems sc.generateFiles).map
            (fun p => fs.addContent (osPathJoin e._definition_root_path p.1) p.2) ∧
      FsEvent.log (copyErrorMsg src (osPathJoin e._definition_root_path dst) exc) ∈
        ((e.GenerateFiles).drain fs).events) ∧
    (∀ (pre : List (String × String)) (m : String) (rest : List GenItem),
      sc.generateFiles =
        pre.map (fun p => GenItem.item p.1 p.2) ++ .raiseErr m :: rest →
      ((e.GenerateFiles).drain fs).outcome = .raised m ∧
      ((e.GenerateFiles).drain fs).yields =
        sc.getFilesToCopy.filterMap (copyYieldOf fs e._definition_root_path) ++
          pre.map
            (fun p => fs.addContent (osPathJoin e._definition_root_path p.1) p.2)) := by
  rw [show (e.GenerateFiles).drain fs = drainBody e fs from rfl,
    drainBody_ready V T e fs sc hready hsc]
  constructor
  · intro pre post src dst exc hlist hfile herr
    constructor
    · rw [hlist, List.filterMap_append, List.filterMap_cons,
        copyYieldOf_error fs e._definition_root_path src dst exc hfile herr,
        List.append_assoc]
    · apply List.mem_append_left
      rw [hlist, List.map_append, List.flatten_append]
      apply List.mem_append_right
      rw [List.map_cons, List.flatten_cons,
        copyEventsOf_error fs e._definition_root_path src dst exc hfile herr]
      apply List.mem_append_left
      simp
  · intro pre m rest hgen
    obtain ⟨hprod, hraise⟩ := producedItems_append_raise pre m rest
    rw [hgen, hprod, hraise]
    exact ⟨rfl, rfl⟩

/-- The scaffolder of the C7 witness: the copy of `/src/a` fails, the copy
of `/src/b` succeeds, and the generator raises after one produced pair. -/
def scW7 : Scaffolder Unit Unit :=
  ⟨none, [("/src/a", "a.py"), ("/src/b", "b.py")],
    [.item "gen.py" "content", .raiseErr "template broken"], "", []⟩

/-- The ready engine of the C7 witness. -/
def engineW7 : ScaffolderEngine Unit Unit :=
  { ScaffolderEngine.init Unit Unit with
    _definition_root_path := "/root",
    _module_name := "Mod",
    _file_name_stem := "mod",
    _scaffolder := some scW7 }

/-- The filesystem of the C7 witness: every source exists, copying to
`/root/a.py` raises a `FileHandlingError`, other copies succeed. -/
def fsW7 : FileSystem :=
  ⟨fun _ => true,
    fun _ dst => if dst == "/root/a.py" then .error "denied" else .ok dst,
    fun p _ => p⟩

/-- Witness for C7: the failed copy is logged and skipped, the later copy
and the produced pair still run, and the generator's exception aborts the
sequence with outcome `raised`. -/
theorem generateFiles_error_containment_witness :
    ((engineW7.GenerateFiles).drain fsW7).yields =
      ["/root/b.py", "/root/gen.py"] ∧
    FsEvent.log (copyErrorMsg "/src/a" "/root/a.py" "denied") ∈
      ((engineW7.GenerateFiles).drain fsW7).events ∧
    ((engineW7.GenerateFiles).drain fsW7).outcome = .raised "template broken" := by
  have h := generateFiles_error_containment Unit Unit engineW7 fsW7 scW7 rfl
    (by decide)
  have h1 := (h.1 [] [("/src/b", "b.py")] "/src/a" "a.py" "denied" rfl rfl rfl)
  have h2 := h.2 [("gen.py", "content")] "template broken" [] rfl
  exact ⟨h1.1.trans (by decide), h1.2, h2.1⟩

/-! ### Frame lemmas: the engine's own attribute mapping is never written -/

theorem setProjectRootLoop_attributes (V T : Type) (e : ScaffolderEngine V T)
    (p : String) (l : List Definition) :
    (ScaffolderEngine.setProjectRootLoop e p l).1._attributes = e._attributes := by
  induction l with
  | nil => rfl
  | cons d rest ih =>
    unfold ScaffolderEngine.setProjectRootLoop
    by_cases h : d.ValidatePath p = true
    · rw [if_pos h]
    · rw [if_neg h]
      exact ih

theorem storeScaffolderAttribute_fst_attributes (V T : Type)
    (e : ScaffolderEngine V T) (n : String) (v : V) (t : T) :
    (e.StoreScaffolderAttribute n v t).1._attributes = e._attributes := by
  unfold ScaffolderEngine.StoreScaffolderAttribute
  cases e._scaffolder with
  | none => rfl
  | some sc => rfl

theorem drainBody_engineAfter_attributes (V T : Type) (e : ScaffolderEngine V T)
    (fs : FileSystem) :
    (drainBody e fs).engineAfter._attributes = e._attributes := by
  unfold drainBody
  cases e.RaiseIfNotReady with
  | some msg => rfl
  | none =>
    cases e._scaffolder with
    | none => rfl
    | some sc => rfl

/-- No public operation ever writes the engine's `_attributes` mapping. -/
theorem applyOp_attributes (V T : Type) (e : ScaffolderEngine V T)
    (op : EngineOp V T) :
    (applyOp e op)._attributes = e._attributes := by
  cases op with
  | setModuleName n => rfl
  | setScaffolder sc => rfl
  | setProjectRootPath reg p => exact setProjectRootLoop_attributes V T e p reg
  | storeScaffolderAttribute n v t =>
    exact storeScaffolderAttribute_fst_attributes V T e n v t
  | generateFiles fs => exact drainBody_engineAfter_attributes V T e fs

/-! ### Claim theorem: `StoreScaffolderAttribute` frame effect -/

/-- Claim C8: `StoreScaffolderAttribute` modifies no engine field — the
engine's own `_attributes` mapping (which, starting from `__init__`, stays
empty across every sequence of public operations), the definition, root
path, stem, module name are all untouched; the scaffolder reference stays
absent when absent and otherwise still holds the same scaffolder, changed
only by its own recording of the forwarded triple — stored attributes live
solely in the scaffolder. -/
theorem storeScaffolderAttribute_frame (V T : Type) :
    (∀ (e : ScaffolderEngine V T) (n : String) (v : V) (t : T),
      (e.StoreScaffolderAttribute n v t).1._attributes = e._attributes ∧
      (e.StoreScaffolderAttribute n v t).1._definition = e._definition ∧
      (e.StoreScaffolderAttribute n v t).1._definition_root_path =
        e._definition_root_path ∧
      (e.StoreScaffolderAttribute n v t).1._file_name_stem = e._file_name_stem ∧
      (e.StoreScaffolderAttribute n v t).1._module_name = e._module_name ∧
      (e._scaffolder = none →
        (e.StoreScaffolderAttribute n v t).1._scaffolder = none) ∧
      (∀ sc, e._scaffolder = some sc →
        (e.StoreScaffolderAttribute n v t).1._scaffolder =
          some (sc.SetAttribute n v t) ∧
        (sc.SetAttribute n v t).raiseIfNotReady = sc.raiseIfNotReady ∧
        (sc.SetAttribute n v t).getFilesToCopy = sc.getFilesToCopy ∧
        (sc.SetAttribute n v t).generateFiles = sc.generateFiles ∧
        (sc.SetAttribute n v t).outputName = sc.outputName ∧
        (sc.SetAttribute n v t).attributeCalls =
          sc.attributeCalls ++ [⟨n, v, t⟩])) ∧
    (∀ ops : List (EngineOp V T),
      (applyOps (ScaffolderEngine.init V T) ops)._attributes = []) := by
  constructor
  · intro e n v t
    cases hsc : e._scaffolder with
    | none =>
      have hred : e.StoreScaffolderAttribute n v t =
          (e, some (.ScaffolderNotConfigured "Scaffolder has not yet been set.")) := by
        unfold ScaffolderEngine.StoreScaffolderAttribute
        rw [hsc]
      rw [hred]
      exact ⟨rfl, rfl, rfl, rfl, rfl, fun _ => hsc, fun sc hs =>
        absurd hs (by simp)⟩
    | some sc =>
      have hred : e.StoreScaffolderAttribute n v t =
          ({ e with _scaffolder := some (sc.SetAttribute n v t) }, none) := by
        unfold ScaffolderEngine.StoreScaffolderAttribute
        rw [hsc]
      rw [hred]
      refine ⟨rfl, rfl, rfl, rfl, rfl, fun habs => absurd habs (by simp), ?_⟩
      intro sc2 hs
      rcases Option.some_inj.mp hs with rfl
      exact ⟨rfl, rfl, rfl, rfl, rfl, rfl⟩
  · have hinv : ∀ (ops : List (EngineOp V T)) (e : ScaffolderEngine V T),
        (applyOps e ops)._attributes = e._attributes := by
      intro ops
      induction ops with
      | nil => intro e; rfl
      | cons op rest ih =>
        intro e
        unfold applyOps
        rw [ih (applyOp e op), applyOp_attributes]
    intro ops
    exact hinv ops (ScaffolderEngine.init V T)

/-- Witness for C8: at a concrete engine holding a scaffolder, the call
leaves every engine field in place, records the triple in the scaffolder,
and a concrete operation sequence from `__init__` keeps the engine's
attribute mapping empty. -/
theorem storeScaffolderAttribute_frame_witness :
    (engineW.StoreScaffolderAttribute "author" () ()).1._definition_root_path =
      engineW._definition_root_path ∧
    (engineW.StoreScaffolderAttribute "author" () ()).1._scaffolder =
      some (scW.SetAttribute "author" () ()) ∧
    (applyOps (ScaffolderEngine.init Unit Unit)
        [.setModuleName "my cool module",
          .setScaffolder scW,
          .storeScaffolderAttribute "author" () (),
          .generateFiles fsW])._attributes = [] := by
  have h := storeScaffolderAttribute_frame Unit Unit
  exact ⟨(h.1 engineW "author" () ()).2.2.1,
    ((h.1 engineW "author" () ()).2.2.2.2.2.2 scW rfl).1,
    h.2 [.setModuleName "my cool module", .setScaffolder scW,
      .storeScaffolderAttribute "author" () (), .generateFiles fsW]⟩

end PlasoScaffolder
